import Mathlib

/-!
Verification of the logseq-raycast-db client and gateway behaviour.

JavaScript strings from the TypeScript sources are embedded as lists of
characters (`Str`), so that trimming, splitting and containment can be
reasoned about structurally.  JavaScript truthiness on optional strings
(`undefined` and `""` are falsy) is embedded by `jsStrTruthy`.
-/

set_option maxHeartbeats 1000000

/-- JavaScript strings are embedded as lists of characters. -/
abbrev Str := List Char

/-- Embeds JavaScript truthiness of an optional string: `undefined` and the
empty string are falsy, every other string is truthy. -/
def jsStrTruthy (s : Option Str) : Bool :=
  match s with
  | some t => !t.isEmpty
  | none => false

/-- Embeds JavaScript `String.prototype.trim`: whitespace is removed from both
ends of the string. -/
def jsTrim (s : Str) : Str :=
  (s.dropWhile Char.isWhitespace).rdropWhile Char.isWhitespace

/-- Embeds `t.replace(/^#/, "")` from `formatCaptureContent`
(src/raycast-extension/src/services/logseq-api.ts line 213): exactly one
leading `#` is removed when present. -/
def stripLeadingHash (t : Str) : Str :=
  match t with
  | c :: rest => if c = '#' then rest else c :: rest
  | [] => []

/-- Embeds the tag mapper `` (t) => `#${t.replace(/^#/, "")}` `` from
`formatCaptureContent` (logseq-api.ts line 213). -/
def tagify (t : Str) : Str := '#' :: stripLeadingHash t

/-- Embeds the `options` argument of `formatCaptureContent`
(logseq-api.ts lines 201-208): each field may be absent. -/
structure CaptureOptions where
  tags : Option (List Str)
  priority : Option Str
  template : Option Str

/-- The template placeholder string `"\x7bcontent\x7d"` used by
`formatCaptureContent` (logseq-api.ts lines 223-224). -/
def contentPlaceholder : Str := "\x7bcontent\x7d".toList

/-- Embeds JavaScript `subject.replace(pat, repl)` with a plain-string
pattern: only the first occurrence of `pat` is replaced. -/
def replaceFirst (pat repl : Str) : Str → Str
  | [] => []
  | c :: rest =>
    if pat.isPrefixOf (c :: rest) then repl ++ List.drop pat.length (c :: rest)
    else c :: replaceFirst pat repl rest

/-- Embeds `LogseqAPIService.formatCaptureContent`
(logseq-api.ts lines 201-228): appends `#`-prefixed tags, prepends a
priority marker, then substitutes the formatted text into the template.
The three guards mirror the JavaScript truthiness tests of the source. -/
def formatCaptureContent (content : Str) (options : Option CaptureOptions) : Str :=
  let formatted := content
  let formatted :=
    match options.bind (·.tags) with
    | some ts =>
      if 0 < ts.length then
        formatted ++ ' ' :: List.intercalate [' '] (ts.map tagify)
      else formatted
    | none => formatted
  let formatted :=
    match options.bind (·.priority) with
    | some p =>
      if !p.isEmpty then '[' :: '#' :: (p ++ ']' :: ' ' :: formatted) else formatted
    | none => formatted
  match options.bind (·.template) with
  | some tpl =>
    if !tpl.isEmpty && tpl != contentPlaceholder then
      replaceFirst contentPlaceholder formatted tpl
    else formatted
  | none => formatted

/-- C1: formatting any content with tags `["todo","work"]`, no priority and no
template appends `" #todo #work"`; formatting with priority `"A"` and no tags
or template prepends `"[#A] "`. -/
theorem c1_formatCaptureContent_tags_and_priority (content : Str) :
    formatCaptureContent content (some ⟨some ["todo".toList, "work".toList], none, none⟩)
      = content ++ " #todo #work".toList ∧
    formatCaptureContent content (some ⟨none, some "A".toList, none⟩)
      = "[#A] ".toList ++ content := by
  constructor
  · rfl
  · rfl

/-- C10 counterexample: for a tag that already starts with `#`, prefixing a
further `#` changes the formatted output, and the emitted tag keeps two
leading `#` characters, so the claimed idempotence fails. -/
theorem c10_counterexample :
    formatCaptureContent "c".toList (some ⟨some ['#' :: "#x".toList], none, none⟩)
      ≠ formatCaptureContent "c".toList (some ⟨some ["#x".toList], none, none⟩) ∧
    tagify ('#' :: "#x".toList) = '#' :: '#' :: "x".toList := by
  constructor
  · decide
  · decide

/-- C10 amended: for every tag that does not itself begin with `#`, formatting
with `#`-prefixed tag equals formatting with the bare tag, and the emitted tag
carries exactly one leading `#`. -/
theorem c10_amended (content t : Str) (h : t.head? ≠ some '#') :
    tagify ('#' :: t) = tagify t ∧ tagify t = '#' :: t ∧
    formatCaptureContent content (some ⟨some ['#' :: t], none, none⟩)
      = formatCaptureContent content (some ⟨some [t], none, none⟩) := by
  have hstrip : stripLeadingHash t = t := by
    cases t with
    | nil => rfl
    | cons c r =>
      have hc : c ≠ '#' := by simpa using h
      simp [stripLeadingHash, hc]
  have hstrip2 : stripLeadingHash ('#' :: t) = t := by
    simp [stripLeadingHash]
  have htag : tagify ('#' :: t) = tagify t := by
    unfold tagify
    rw [hstrip2, hstrip]
  exact ⟨htag, by unfold tagify; rw [hstrip], by simp [formatCaptureContent, htag]⟩

/-- C10 amended witness: instantiation at tag `"x"` and content `"c"`. -/
theorem c10_amended_witness :
    "x".toList.head? ≠ some '#' ∧
    (tagify ('#' :: "x".toList) = tagify "x".toList ∧
     tagify "x".toList = '#' :: "x".toList ∧
     formatCaptureContent "c".toList (some ⟨some ['#' :: "x".toList], none, none⟩)
       = formatCaptureContent "c".toList (some ⟨some ["x".toList], none, none⟩)) :=
  ⟨by decide, c10_amended "c".toList "x".toList (by decide)⟩

/-- Helper: if `dropWhile` leaves a cons cell unchanged, its head fails the
predicate. -/
theorem dropWhile_head_false {α : Type*} {p : α → Bool} {c : α} {r : List α}
    (h : List.dropWhile p (c :: r) = c :: r) : p c = false := by
  by_contra hc
  have hc' : p c = true := by simpa using hc
  rw [List.dropWhile_cons_of_pos hc'] at h
  have hle := (List.dropWhile_suffix (l := r) p).length_le
  rw [h] at hle
  simp at hle

/-- Helper: JavaScript `trim` is idempotent. -/
theorem jsTrim_idem (s : Str) : jsTrim (jsTrim s) = jsTrim s := by
  unfold jsTrim
  have hu : List.dropWhile Char.isWhitespace (List.dropWhile Char.isWhitespace s)
      = List.dropWhile Char.isWhitespace s := List.dropWhile_idempotent _ _
  set u := List.dropWhile Char.isWhitespace s with hu_def
  have hv : List.dropWhile Char.isWhitespace (u.rdropWhile Char.isWhitespace)
      = u.rdropWhile Char.isWhitespace := by
    obtain ⟨tl, htl⟩ := List.rdropWhile_prefix Char.isWhitespace u
    cases hv' : u.rdropWhile Char.isWhitespace with
    | nil => rfl
    | cons c r =>
      rw [hv'] at htl
      have hcu : c :: (r ++ tl) = u := by simpa using htl
      have hcfalse : Char.isWhitespace c = false := by
        apply dropWhile_head_false (r := r ++ tl)
        rw [hcu]
        exact hu
      exact List.dropWhile_cons_of_neg (by simp [hcfalse])
  rw [hv]
  exact List.rdropWhile_idempotent _ _

/-- Helper: the trimmed string is a sublist of the original string. -/
theorem jsTrim_sublist (s : Str) : List.Sublist (jsTrim s) s := by
  unfold jsTrim
  exact ((List.rdropWhile_prefix _ _).sublist).trans (List.dropWhile_suffix _).sublist

/-- Helper: trimming cannot introduce a character the string did not contain. -/
theorem jsTrim_contains_false (s : Str) (c : Char) (h : s.contains c = false) :
    (jsTrim s).contains c = false := by
  by_contra hc
  have hmem : c ∈ jsTrim s := List.elem_iff.mp (by simpa using hc)
  have : c ∈ s := (jsTrim_sublist s).subset hmem
  rw [← List.elem_iff] at this
  simp [List.contains] at h
  exact absurd this (by simpa using h)

/-- Embeds the graph-name parsing of `LogseqAPIService.listGraphs`
(logseq-api.ts lines 106-118): split stdout on newlines, keep the lines whose
trim is non-empty, that contain no colon and whose trim is neither
`"DB Graphs"` nor `"File Graphs"`, then trim the survivors. -/
def parseGraphNames (stdout : Str) : List Str :=
  let lines := stdout.splitOn '\n'
  (lines.filter fun line =>
    !(jsTrim line).isEmpty && !line.contains ':' &&
      jsTrim line != "DB Graphs".toList && jsTrim line != "File Graphs".toList).map jsTrim

/-- C2: every graph name produced from a /list stdout is trimmed, non-empty,
contains no colon and is not a section-header literal, and the surviving names
keep the relative order of their lines in the stdout. -/
theorem c2_parseGraphNames_invariants (stdout : Str) :
    (∀ name ∈ parseGraphNames stdout,
      jsTrim name = name ∧ name ≠ [] ∧ name.contains ':' = false ∧
      name ≠ "DB Graphs".toList ∧ name ≠ "File Graphs".toList) ∧
    List.Sublist (parseGraphNames stdout) ((stdout.splitOn '\n').map jsTrim) := by
  constructor
  · intro name hname
    simp only [parseGraphNames, List.mem_map, List.mem_filter] at hname
    obtain ⟨line, ⟨hline, hfilt⟩, rfl⟩ := hname
    simp only [Bool.and_eq_true, Bool.not_eq_true', bne_iff_ne, ne_eq] at hfilt
    obtain ⟨⟨⟨hne, hcolon⟩, hdb⟩, hfile⟩ := hfilt
    refine ⟨jsTrim_idem line, ?_, jsTrim_contains_false line ':' hcolon, hdb, hfile⟩
    simpa using hne
  · exact (List.filter_sublist _).map jsTrim

/-- C2 witness: instantiation on a concrete stdout containing headers, blank
lines, metadata lines with colons and two real graph names. -/
theorem c2_parseGraphNames_witness :
    " my-graph ".toList ∈ parseGraphNames "DB Graphs\n my-graph \nversion: 1\n\nother".toList ∨
    (jsTrim "my-graph".toList = "my-graph".toList ∧ "my-graph".toList ≠ [] ∧
     ("my-graph".toList).contains ':' = false ∧
     "my-graph".toList ≠ "DB Graphs".toList ∧ "my-graph".toList ≠ "File Graphs".toList) :=
  Or.inr ((c2_parseGraphNames_invariants
    "DB Graphs\n my-graph \nversion: 1\n\nother".toList).1 "my-graph".toList (by decide))

/-- Embeds the `LogseqPage` record shape
(src/raycast-extension/src/types/logseq.ts lines 6-12). -/
structure LogseqPage where
  uuid : Str
  title : Str
  name : Str
  dbId : Int
  journalDay : Option Nat
deriving DecidableEq

/-- Embeds the `/search` response envelope `SearchResponse`
(types/logseq.ts lines 15-23). -/
structure SearchResponse where
  success : Bool
  data : Option (List LogseqPage)
  error : Option Str
  stderr : Option Str
deriving DecidableEq

/-- Embeds the JavaScript `||` operator on optional strings: the left operand
is kept when truthy, otherwise the right operand is used. -/
def jsOrStr (a b : Option Str) : Option Str :=
  if jsStrTruthy a then a else b

/-- Embeds `LogseqAPIService.search` (logseq-api.ts lines 124-136) as a
function of the parsed `/search` response and the optional `maxResults`
argument: on failure it throws the resolved error message, on success it
returns `data` (defaulting to the empty list) truncated by
`maxResults ? pages.slice(0, maxResults) : pages`. -/
def searchClient (response : SearchResponse) (maxResults : Option Nat) :
    Except Str (List LogseqPage) :=
  if response.success then
    let pages := response.data.getD []
    match maxResults with
    | some m => if m ≠ 0 then Except.ok (pages.take m) else Except.ok pages
    | none => Except.ok pages
  else
    Except.error
      ((jsOrStr response.error (jsOrStr response.stderr (some "Search failed".toList))).getD [])

/-- Modelled from the spec: the gateway's `/search` handler
(`http-server/logseq_server.py`, not among the sources) wraps the tool's full
record set in a success envelope without truncating it. -/
def gatewaySearchEnvelope (records : List LogseqPage) : SearchResponse :=
  { success := true, data := some records, error := none, stderr := none }

/-- C3: on a successful /search response carrying `pages`, the client returns
exactly the first `maxResults` elements when `maxResults ≥ 1` (hence at most
`maxResults` records), returns the full list unchanged when no `maxResults` is
requested, and the gateway envelope passes the full record set through. -/
theorem c3_search_truncation (r : SearchResponse) (pages : List LogseqPage) (m : Nat)
    (hs : r.success = true) (hd : r.data = some pages) (hm : 1 ≤ m) :
    searchClient r (some m) = Except.ok (pages.take m) ∧
    (pages.take m).length ≤ m ∧
    searchClient r none = Except.ok pages ∧
    (∀ records : List LogseqPage, (gatewaySearchEnvelope records).success = true ∧
      (gatewaySearchEnvelope records).data = some records) := by
  have hm0 : m ≠ 0 := Nat.one_le_iff_ne_zero.mp hm
  refine ⟨?_, ?_, ?_, ?_⟩
  · simp [searchClient, hs, hd, hm0]
  · simp
  · simp [searchClient, hs, hd]
  · intro records
    exact ⟨rfl, rfl⟩

/-- C3 witness: instantiation on a concrete three-record response with
`maxResults = 2`. -/
theorem c3_search_truncation_witness :
    (let p := fun n => LogseqPage.mk [n] [n] [n] 0 none
     let r := gatewaySearchEnvelope [p 'a', p 'b', p 'c']
     r.success = true ∧ r.data = some [p 'a', p 'b', p 'c'] ∧ 1 ≤ 2 ∧
     (searchClient r (some 2) = Except.ok [p 'a', p 'b'] ∧
      ([p 'a', p 'b', p 'c'].take 2).length ≤ 2 ∧
      searchClient r none = Except.ok [p 'a', p 'b', p 'c'] ∧
      (∀ records : List LogseqPage, (gatewaySearchEnvelope records).success = true ∧
        (gatewaySearchEnvelope records).data = some records))) :=
  ⟨rfl, rfl, by decide,
   c3_search_truncation _ [⟨['a'], ['a'], ['a'], 0, none⟩, ⟨['b'], ['b'], ['b'], 0, none⟩,
     ⟨['c'], ['c'], ['c'], 0, none⟩] 2 rfl rfl (by decide)⟩

/-- Embeds the request body built by `LogseqAPIService.append` and
`LogseqAPIService.appendToJournal` (logseq-api.ts lines 162-196): the body has
a `content` field and an optional `token` field. -/
structure AppendBody where
  content : Str
  token : Option Str
deriving DecidableEq

/-- Embeds an HTTP POST issued by the client: a path and an append body. -/
structure PostRequest where
  path : Str
  body : AppendBody
deriving DecidableEq

/-- Embeds the token handling shared by `append` and `appendToJournal`
(logseq-api.ts lines 162-168 and 183-189): `apiToken = token || this.apiToken`
followed by `if (apiToken) body.token = apiToken`. -/
def mkAppendBody (content : Str) (token configured : Option Str) : AppendBody :=
  let apiToken := jsOrStr token configured
  { content := content, token := if jsStrTruthy apiToken then apiToken else none }

/-- Embeds the POST built by `LogseqAPIService.append`
(logseq-api.ts lines 162-170). -/
def appendRequest (content : Str) (token configured : Option Str) : PostRequest :=
  { path := "/append".toList, body := mkAppendBody content token configured }

/-- Embeds the POST built by `LogseqAPIService.appendToJournal`
(logseq-api.ts lines 183-191). -/
def appendToJournalRequest (content : Str) (token configured : Option Str) : PostRequest :=
  { path := "/append-to-journal".toList, body := mkAppendBody content token configured }

/-- C4 counterexample: a call that explicitly supplies the empty-string token
while a configured token exists places the configured token, not the supplied
one, in the request body. -/
theorem c4_counterexample :
    (appendRequest "c".toList (some []) (some "x".toList)).body.token ≠ some ([] : Str) ∧
    (appendRequest "c".toList (some []) (some "x".toList)).body.token = some "x".toList ∧
    (appendToJournalRequest "c".toList (some []) (some "x".toList)).body.token
      = some "x".toList := by
  refine ⟨by decide, by decide, by decide⟩

/-- C4 amended: for `append` and `appendToJournal`, a supplied non-empty token
is placed in the body (the configured token is ignored); when no truthy token
argument is supplied, a non-empty configured token is used; when neither a
truthy argument nor a truthy configured token exists, the body carries only
the content and no token field.  A supplied empty token is treated as absent. -/
theorem c4_amended (content : Str) (token configured : Option Str) :
    (∀ t, token = some t → t ≠ [] →
      (appendRequest content token configured).body = ⟨content, some t⟩ ∧
      (appendToJournalRequest content token configured).body = ⟨content, some t⟩) ∧
    (jsStrTruthy token = false → ∀ c, configured = some c → c ≠ [] →
      (appendRequest content token configured).body = ⟨content, some c⟩ ∧
      (appendToJournalRequest content token configured).body = ⟨content, some c⟩) ∧
    (jsStrTruthy token = false → jsStrTruthy configured = false →
      (appendRequest content token configured).body = ⟨content, none⟩ ∧
      (appendToJournalRequest content token configured).body = ⟨content, none⟩) := by
  refine ⟨?_, ?_, ?_⟩
  · intro t ht hne
    subst ht
    have he : t.isEmpty = false := by simpa using hne
    constructor <;>
      simp [appendRequest, appendToJournalRequest, mkAppendBody, jsOrStr, jsStrTruthy, he]
  · intro htok c hc hne
    subst hc
    have he : c.isEmpty = false := by simpa using hne
    have hts : jsStrTruthy (some c) = true := by simp [jsStrTruthy, he]
    constructor <;>
      simp [appendRequest, appendToJournalRequest, mkAppendBody, jsOrStr, htok, hts]
  · intro htok hcfg
    constructor <;>
      simp [appendRequest, appendToJournalRequest, mkAppendBody, jsOrStr, htok, hcfg]

/-- C4 amended witness: the three resolution branches at concrete inputs. -/
theorem c4_amended_witness :
    ((appendRequest "c".toList (some "t".toList) (some "k".toList)).body
        = ⟨"c".toList, some "t".toList⟩ ∧
      (appendToJournalRequest "c".toList (some "t".toList) (some "k".toList)).body
        = ⟨"c".toList, some "t".toList⟩) ∧
    ((appendRequest "c".toList none (some "k".toList)).body = ⟨"c".toList, some "k".toList⟩ ∧
      (appendToJournalRequest "c".toList none (some "k".toList)).body
        = ⟨"c".toList, some "k".toList⟩) ∧
    ((appendRequest "c".toList none none).body = ⟨"c".toList, none⟩ ∧
      (appendToJournalRequest "c".toList none none).body = ⟨"c".toList, none⟩) :=
  ⟨(c4_amended "c".toList (some "t".toList) (some "k".toList)).1 "t".toList rfl (by decide),
   (c4_amended "c".toList none (some "k".toList)).2.1 (by decide) "k".toList rfl (by decide),
   (c4_amended "c".toList none none).2.2 (by decide) (by decide)⟩

/-- Embeds the JSON-RPC payload posted to the Logseq native API
(src/unnamed/part_003 lines 87-104): a method name and string arguments. -/
structure NativePayload where
  method : Str
  args : List Str
deriving DecidableEq

/-- The error taxonomy of the gateway (spec section 7). -/
inductive GatewayError where
  | processError
  | authError
  | unreachableError
  | remoteError
  | validationError
deriving DecidableEq

/-- A call issued by the gateway to one of its two backends: a Command Runner
subprocess invocation or a Native API Client JSON-RPC call. -/
inductive BackendCall where
  | commandRun (args : List Str)
  | nativeCall (payload : NativePayload) (token : Str)
deriving DecidableEq

/-- A local calendar date as used by `datetime.now().strftime` in
`_append_to_journal` (src/unnamed/part_003 lines 87-104). -/
structure LocalDate where
  year : Nat
  month : Nat
  day : Nat
deriving DecidableEq

/-- Decimal digits of a natural number, via an explicit fuel argument. -/
def natToStrAux : Nat → Nat → Str → Str
  | 0, _, acc => acc
  | fuel + 1, n, acc =>
    if n < 10 then Char.ofNat (48 + n) :: acc
    else natToStrAux fuel (n / 10) (Char.ofNat (48 + n % 10) :: acc)

/-- Decimal representation of a natural number. -/
def natToStr (n : Nat) : Str := natToStrAux (n + 1) n []

/-- Zero-pads a decimal number to the given width, as `strftime` does for
`%Y`, `%m` and `%d`. -/
def padZero (width n : Nat) : Str :=
  let s := natToStr n
  List.replicate (width - s.length) '0' ++ s

/-- Embeds `datetime.now().strftime('%Y-%m-%d')` from `_append_to_journal`
(src/unnamed/part_003 lines 87-104): the journal page key for a local date. -/
def journalKey (d : LocalDate) : Str :=
  padZero 4 d.year ++ '-' :: (padZero 2 d.month ++ '-' :: padZero 2 d.day)

/-- Embeds the payload built by `_append_to_journal`
(src/unnamed/part_003 lines 87-104): method `logseq.Editor.appendBlockInPage`
with arguments `[today, content]`. -/
def appendToJournalPayload (today : LocalDate) (content : Str) : NativePayload :=
  { method := "logseq.Editor.appendBlockInPage".toList, args := [journalKey today, content] }

/-- Modelled from the spec: the Write-Target Resolver of the gateway
(`http-server/logseq_server.py` is not among the sources).  For an
append-to-journal request it resolves the token as request-body token, then
configured token, then absence; without a resolved token it fails fast with
`AuthError` and issues no backend call; with one it issues exactly one Native
API call `appendBlockInPage [journalKey, content]`. -/
def resolveAppendToJournal (content : Str) (requestToken configuredToken : Option Str)
    (today : LocalDate) : List BackendCall × Except GatewayError Unit :=
  match jsOrStr requestToken configuredToken with
  | none => ([], Except.error GatewayError.authError)
  | some t =>
    if t.isEmpty then ([], Except.error GatewayError.authError)
    else ([BackendCall.nativeCall (appendToJournalPayload today content) t], Except.ok ())

/-- Embeds `CaptureToJournal.handleSubmit` (src/raycast-extension/src/quick-capture.tsx,
capture-to-journal variant, lines 160-190): empty trimmed content or a missing
API token returns before `logseqAPI.appendToJournal` is invoked; otherwise
exactly one append-to-journal POST carrying the preference token is issued. -/
def captureToJournalSubmit (content : Str) (apiToken : Option Str) : List PostRequest :=
  if (jsTrim content).isEmpty then []
  else if !(jsStrTruthy apiToken) then []
  else [appendToJournalRequest content apiToken apiToken]

/-- C5: an append-to-journal request without a token (no truthy request token
and no truthy configured token) fails with `AuthError` and issues zero backend
calls, and the capture-to-journal client likewise never invokes
`appendToJournal` when the token preference is absent. -/
theorem c5_appendToJournal_authError_no_calls (content : Str) (today : LocalDate)
    (requestToken configuredToken : Option Str)
    (h1 : jsStrTruthy requestToken = false) (h2 : jsStrTruthy configuredToken = false) :
    (resolveAppendToJournal content requestToken configuredToken today).1 = [] ∧
    (resolveAppendToJournal content requestToken configuredToken today).2
      = Except.error GatewayError.authError ∧
    captureToJournalSubmit content requestToken = [] := by
  have hres : jsOrStr requestToken configuredToken = configuredToken := by
    simp [jsOrStr, h1]
  refine ⟨?_, ?_, ?_⟩
  · unfold resolveAppendToJournal
    rw [hres]
    cases configuredToken with
    | none => rfl
    | some t =>
      have : t.isEmpty = true := by simpa [jsStrTruthy] using h2
      simp [this]
  · unfold resolveAppendToJournal
    rw [hres]
    cases configuredToken with
    | none => rfl
    | some t =>
      have : t.isEmpty = true := by simpa [jsStrTruthy] using h2
      simp [this]
  · unfold captureToJournalSubmit
    rw [h1]
    simp

/-- C5 witness: instantiation with content `"buy milk"`, no request token and
no configured token, on 2026-02-02. -/
theorem c5_appendToJournal_authError_no_calls_witness :
    jsStrTruthy none = false ∧
    ((resolveAppendToJournal "buy milk".toList none none ⟨2026, 2, 2⟩).1 = [] ∧
     (resolveAppendToJournal "buy milk".toList none none ⟨2026, 2, 2⟩).2
       = Except.error GatewayError.authError ∧
     captureToJournalSubmit "buy milk".toList none = []) :=
  ⟨rfl, c5_appendToJournal_authError_no_calls "buy milk".toList ⟨2026, 2, 2⟩ none none rfl rfl⟩

/-- C6: the journal page key is the local date formatted `YYYY-MM-DD` and the
native API payload always carries `[journalKey, content]` with method
`logseq.Editor.appendBlockInPage`; on 2026-02-02 the key is exactly
`"2026-02-02"`. -/
theorem c6_journal_key (content : Str) (d : LocalDate) :
    journalKey ⟨2026, 2, 2⟩ = "2026-02-02".toList ∧
    (appendToJournalPayload d content).args = [journalKey d, content] ∧
    (appendToJournalPayload d content).method = "logseq.Editor.appendBlockInPage".toList :=
  ⟨by decide, rfl, rfl⟩

/-- Embeds the `/list` response envelope `ListGraphsResponse`
(types/logseq.ts lines 25-27). -/
structure ListGraphsResponse where
  success : Bool
  error : Option Str
  stderr : Option Str
  stdout : Option Str
deriving DecidableEq

/-- Embeds `LogseqAPIService.listGraphs` (logseq-api.ts lines 99-119) as a
function of the parsed `/list` response: on `success=false` it throws
`response.error || "Failed to fetch graphs"`, otherwise it parses the graph
names from `response.stdout || ""`. -/
def listGraphsClient (response : ListGraphsResponse) : Except Str (List Str) :=
  if response.success then
    Except.ok (parseGraphNames (response.stdout.getD []))
  else
    Except.error ((jsOrStr response.error (some "Failed to fetch graphs".toList)).getD [])

/-- Modelled from the spec: the gateway `/list` handler
(`http-server/logseq_server.py` is not among the sources): a nonzero tool exit
code yields `success=false` with the fixed error `"Failed to fetch graphs"`,
a zero exit code yields `success=true` with the tool stdout. -/
def gatewayListEnvelope (exitCode : Int) (stdout stderr : Str) : ListGraphsResponse :=
  if exitCode = 0 then
    { success := true, error := none, stderr := none, stdout := some stdout }
  else
    { success := false, error := some "Failed to fetch graphs".toList,
      stderr := some stderr, stdout := none }

/-- C7 counterexample: on an envelope whose error field is present but empty,
the client throws the fixed message `"Failed to fetch graphs"`, not the
present (empty) error field, refuting the claim as stated. -/
theorem c7_counterexample :
    listGraphsClient ⟨false, some [], none, none⟩
      = Except.error "Failed to fetch graphs".toList ∧
    listGraphsClient ⟨false, some [], none, none⟩ ≠ Except.error ([] : Str) := by
  refine ⟨rfl, ?_⟩
  intro h
  rw [show listGraphsClient ⟨false, some [], none, none⟩
      = Except.error "Failed to fetch graphs".toList from rfl] at h
  injection h with h2
  exact absurd h2 (by decide)

/-- C7 amended: a nonzero tool exit yields the fixed failure envelope; the
client never throws on `success=true`; on `success=false` it throws the
envelope's error field when that field is present and non-empty, and exactly
`"Failed to fetch graphs"` when it is absent or empty. -/
theorem c7_amended :
    (∀ exitCode : Int, ∀ stdout stderr : Str, exitCode ≠ 0 →
      (gatewayListEnvelope exitCode stdout stderr).success = false ∧
      (gatewayListEnvelope exitCode stdout stderr).error
        = some "Failed to fetch graphs".toList) ∧
    (∀ r : ListGraphsResponse, r.success = true →
      listGraphsClient r = Except.ok (parseGraphNames (r.stdout.getD []))) ∧
    (∀ r : ListGraphsResponse, r.success = false →
      (∀ e, r.error = some e → e ≠ [] → listGraphsClient r = Except.error e) ∧
      (jsStrTruthy r.error = false →
        listGraphsClient r = Except.error "Failed to fetch graphs".toList)) := by
  refine ⟨?_, ?_, ?_⟩
  · intro exitCode stdout stderr hne
    unfold gatewayListEnvelope
    rw [if_neg hne]
    exact ⟨rfl, rfl⟩
  · intro r hr
    simp [listGraphsClient, hr]
  · intro r hr
    constructor
    · intro e he hne
      have hemp : e.isEmpty = false := by simpa using hne
      simp [listGraphsClient, hr, jsOrStr, jsStrTruthy, he, hemp]
    · intro hfalsy
      simp [listGraphsClient, hr, jsOrStr, hfalsy]

/-- C7 amended witness: the three branches at concrete envelopes and exit
code 1. -/
theorem c7_amended_witness :
    ((gatewayListEnvelope 1 [] "boom".toList).success = false ∧
      (gatewayListEnvelope 1 [] "boom".toList).error
        = some "Failed to fetch graphs".toList) ∧
    listGraphsClient ⟨true, none, none, some "g1".toList⟩
      = Except.ok (parseGraphNames "g1".toList) ∧
    listGraphsClient ⟨false, some "oops".toList, none, none⟩
      = Except.error "oops".toList ∧
    listGraphsClient ⟨false, none, none, none⟩
      = Except.error "Failed to fetch graphs".toList :=
  ⟨c7_amended.1 1 [] "boom".toList (by decide),
   c7_amended.2.1 ⟨true, none, none, some "g1".toList⟩ rfl,
   (c7_amended.2.2 ⟨false, some "oops".toList, none, none⟩ rfl).1 "oops".toList rfl (by decide),
   (c7_amended.2.2 ⟨false, none, none, none⟩ rfl).2 rfl⟩

/-- Embeds the guard of the search effect in `SearchLogseq`
(src/unnamed/part_001 lines 38-43): with empty trimmed search text or no
selected graph the effect clears the results and returns without calling
`logseqAPI.search`; the returned Boolean says whether a search request is
issued. -/
def searchEffectIssuesRequest (searchText selectedGraph : Str) : Bool :=
  !(jsTrim searchText).isEmpty && !selectedGraph.isEmpty

/-- Embeds the query-parameter handling of `LogseqAPIService.buildUrl`
(logseq-api.ts lines 40-48): a parameter is set on the URL only when its
value is truthy, so empty-string values are omitted. -/
def buildUrlParams (params : List (Str × Str)) : List (Str × Str) :=
  params.filter fun kv => !kv.2.isEmpty

/-- Modelled from the spec: the Gateway Router's `/search` handler
(`http-server/logseq_server.py` is not among the sources) validates that `q`
and `graph` are present and non-empty before invoking the Command Runner; on
a validation failure it issues no backend call. -/
def gatewaySearchHandler (q graph : Option Str) : List BackendCall × Except GatewayError Unit :=
  match q, graph with
  | some qv, some gv =>
    if qv.isEmpty || gv.isEmpty then ([], Except.error GatewayError.validationError)
    else ([BackendCall.commandRun ["search".toList, qv, "-g".toList, gv]], Except.ok ())
  | _, _ => ([], Except.error GatewayError.validationError)

/-- C8: a /search request with an empty `q` or `graph` never reaches the
Command Runner: the gateway rejects it with a validation error and no backend
call, the search command never issues the request when the trimmed search text
is empty or no graph is selected, and `buildUrl` omits every query parameter
whose value is the empty string. -/
theorem c8_search_validation (searchText selectedGraph : Str) (q graph : Option Str)
    (params : List (Str × Str))
    (hclient : jsTrim searchText = [] ∨ selectedGraph = [])
    (hgw : jsStrTruthy q = false ∨ jsStrTruthy graph = false) :
    searchEffectIssuesRequest searchText selectedGraph = false ∧
    (gatewaySearchHandler q graph).1 = [] ∧
    (gatewaySearchHandler q graph).2 = Except.error GatewayError.validationError ∧
    (∀ kv ∈ buildUrlParams params, kv.2 ≠ []) := by
  have hgw2 : gatewaySearchHandler q graph = ([], Except.error GatewayError.validationError) := by
    unfold gatewaySearchHandler
    cases q with
    | none => rfl
    | some qv =>
      cases graph with
      | none => rfl
      | some gv =>
        rcases hgw with h | h
        · have hq : qv.isEmpty = true := by simpa [jsStrTruthy] using h
          simp [hq]
        · have hg : gv.isEmpty = true := by simpa [jsStrTruthy] using h
          simp [hg]
  refine ⟨?_, ?_, ?_, ?_⟩
  · unfold searchEffectIssuesRequest
    rcases hclient with h | h <;> simp [h]
  · rw [hgw2]
  · rw [hgw2]
  · intro kv hkv
    have := (List.mem_filter.mp hkv).2
    simpa using this

/-- C8 witness: whitespace-only search text, an empty graph parameter and a
parameter list containing an empty-valued entry. -/
theorem c8_search_validation_witness :
    (jsTrim " ".toList = [] ∨ "g".toList = ([] : Str)) ∧
    (jsStrTruthy (some "foo".toList) = false ∨ jsStrTruthy (some []) = false) ∧
    (searchEffectIssuesRequest " ".toList "g".toList = false ∧
     (gatewaySearchHandler (some "foo".toList) (some [])).1 = [] ∧
     (gatewaySearchHandler (some "foo".toList) (some [])).2
       = Except.error GatewayError.validationError ∧
     (∀ kv ∈ buildUrlParams [("q".toList, "foo".toList), ("graph".toList, [])], kv.2 ≠ [])) :=
  ⟨Or.inl (by decide), Or.inr (by decide),
   c8_search_validation " ".toList "g".toList (some "foo".toList) (some [])
     [("q".toList, "foo".toList), ("graph".toList, [])]
     (Or.inl (by decide)) (Or.inr (by decide))⟩

/-- Value of a string of decimal digits. -/
def digitsToNat (ds : Str) : Nat :=
  ds.foldl (fun acc c => acc * 10 + (c.toNat - 48)) 0

/-- The longest leading run of decimal digits, or `none` when there is none. -/
def parseLeadingDigits (s : Str) : Option Nat :=
  let ds := s.takeWhile Char.isDigit
  if ds.isEmpty then none else some (digitsToNat ds)

/-- Embeds JavaScript `parseInt(s, 10)`: leading whitespace is skipped, an
optional sign is read, then the longest prefix of decimal digits is parsed;
the result is NaN (`none`) when no digit follows. -/
def jsParseInt10 (s : Str) : Option Int :=
  let s1 := s.dropWhile Char.isWhitespace
  match s1 with
  | '-' :: rest => (parseLeadingDigits rest).map (fun n => -(n : Int))
  | '+' :: rest => (parseLeadingDigits rest).map (fun n => (n : Int))
  | _ => (parseLeadingDigits s1).map (fun n => (n : Int))

/-- Embeds the `maxResults` computation of `SearchLogseq`
(src/unnamed/part_001 lines 25-28): `parseInt(preferences.maxResults || "20",
10)`, with a NaN or less-than-1 result replaced by 20 and the rest clamped to
at most 100 by `Math.min`. -/
def effectiveMaxResults (pref : Option Str) : Int :=
  match jsParseInt10 ((jsOrStr pref (some "20".toList)).getD []) with
  | none => 20
  | some v => if v < 1 then 20 else min v 100

/-- C9: the effective `maxResults` always lies in `[1, 100]`; a missing or
empty preference yields 20, a non-numeric or less-than-1 value yields 20, and
a parsed value above 100 is clamped to 100. -/
theorem c9_maxResults_range (pref : Option Str) :
    (1 ≤ effectiveMaxResults pref ∧ effectiveMaxResults pref ≤ 100) ∧
    (jsStrTruthy pref = false → effectiveMaxResults pref = 20) ∧
    (∀ s, pref = some s → s ≠ [] → jsParseInt10 s = none → effectiveMaxResults pref = 20) ∧
    (∀ s v, pref = some s → s ≠ [] → jsParseInt10 s = some v → v < 1 →
      effectiveMaxResults pref = 20) ∧
    (∀ s v, pref = some s → s ≠ [] → jsParseInt10 s = some v → 100 < v →
      effectiveMaxResults pref = 100) := by
  refine ⟨?_, ?_, ?_, ?_, ?_⟩
  · unfold effectiveMaxResults
    cases hp : jsParseInt10 ((jsOrStr pref (some "20".toList)).getD []) with
    | none =>
      norm_num
    | some v =>
      simp only []
      split_ifs with hv
      · norm_num
      · rcases le_or_lt v 100 with hle | hgt
        · rw [min_eq_left hle]
          omega
        · rw [min_eq_right (by omega : (100 : Int) ≤ v)]
          norm_num
  · intro hfalsy
    unfold effectiveMaxResults
    rw [show jsOrStr pref (some "20".toList) = some "20".toList by simp [jsOrStr, hfalsy]]
    rfl
  · intro s hs hne hnan
    subst hs
    have he : s.isEmpty = false := by simpa using hne
    unfold effectiveMaxResults
    rw [show jsOrStr (some s) (some "20".toList) = some s by simp [jsOrStr, jsStrTruthy, he]]
    simp [hnan]
  · intro s v hs hne hv hlt
    subst hs
    have he : s.isEmpty = false := by simpa using hne
    unfold effectiveMaxResults
    rw [show jsOrStr (some s) (some "20".toList) = some s by simp [jsOrStr, jsStrTruthy, he]]
    simp [hv, hlt]
  · intro s v hs hne hv hgt
    subst hs
    have he : s.isEmpty = false := by simpa using hne
    unfold effectiveMaxResults
    rw [show jsOrStr (some s) (some "20".toList) = some s by simp [jsOrStr, jsStrTruthy, he]]
    simp only [Option.getD_some, hv]
    rw [if_neg (by omega)]
    rw [min_eq_right (by omega : (100 : Int) ≤ v)]

/-- C9 witness: the defaulting and clamping branches at concrete preference
strings. -/
theorem c9_maxResults_range_witness :
    (1 ≤ effectiveMaxResults (some "250".toList) ∧
      effectiveMaxResults (some "250".toList) ≤ 100) ∧
    (effectiveMaxResults none = 20) ∧
    (effectiveMaxResults (some "abc".toList) = 20) ∧
    (effectiveMaxResults (some "0".toList) = 20) ∧
    (effectiveMaxResults (some "250".toList) = 100) :=
  ⟨(c9_maxResults_range (some "250".toList)).1,
   (c9_maxResults_range none).2.1 rfl,
   (c9_maxResults_range (some "abc".toList)).2.2.1 "abc".toList rfl (by decide) (by decide),
   (c9_maxResults_range (some "0".toList)).2.2.2.1 "0".toList 0 rfl (by decide) (by decide)
     (by decide),
   (c9_maxResults_range (some "250".toList)).2.2.2.2 "250".toList 250 rfl (by decide)
     (by decide) (by decide)⟩
